import Mathlib

/-!
Verification of the `ptbcontrib/roles` role-based access-control engine
(`src/ptbcontrib/roles/roles.py`) against its natural-language specification.

The Python classes `Role`, `ChatAdminsRole`, `ChatCreatorRole` and `Roles` are
shallowly embedded below:

* the process-wide admin-singleton machinery of `Role.__init__` /
  `Role.__init_admin` (lines 117-150) becomes an explicit state machine on
  `AdminState`;
* the hierarchy comparisons `Role.__lt__` / `Role.__le__` (lines 264-272)
  become the fuel-bounded boolean function `roleLT` over a `RoleGraph`
  (the fuel only bounds recursion depth; on acyclic graphs the Python
  recursion terminates and any sufficiently large fuel computes its value);
* `Role.equals` (lines 290-315) becomes the structural recursion `equals`
  on `RoleTree`, the unfolding of an acyclic role graph;
* the specialized filters of `ChatAdminsRole` / `ChatCreatorRole`
  (lines 357-376 and 399-420) become pure functions that additionally
  return the updated cache and the number of external fetches performed;
* fallible Python code (code that raises) returns `Except PyErr`.
-/

/-- The Python exception kinds raised by the embedded code paths. -/
inductive PyErr where
  | valueError
  | typeError
  | attributeError
  | recursionError
  deriving DecidableEq, Repr

/-!
## The admin-singleton machinery of `Role.__init__`

`Role` holds three class-level pieces of state (lines 117-119):
an admin lock, a `BoundedSemaphore` and the class attribute `__admin`,
declared as `None`.  `Role.__init__` (lines 121-139) performs, after the
per-instance setup:

    if self.__admin_semaphore.acquire(blocking=False):
        self.__init_admin()
    if self.__admin is not None:
        self.__admin.add_child_role(self)

and `Role.__init_admin` (lines 141-145) performs

    with cls.__admin_lock:
        if cls.__admin is None:
            cls.__admin__admin = cls(name="admins")

Note the target of the assignment: `cls.__admin__admin` (name-mangled to
`_Role__admin__admin`) is a fresh attribute distinct from the declared
class attribute `cls.__admin` (mangled `_Role__admin`).  We embed both
attributes faithfully, as `admin` and `adminAdmin`.
-/

/-- Process-wide state of the `Role` class plus the object heap relevant to
construction: which roles exist, and the per-role child sets that the
constructor may extend via `self.__admin.add_child_role(self)`. -/
structure AdminState where
  /-- `True` while the one-shot `BoundedSemaphore` has not been acquired. -/
  semaphoreFree : Bool
  /-- The declared class attribute `Role.__admin` (line 119). -/
  admin : Option Nat
  /-- The junk attribute `Role.__admin__admin` created by the assignment on
  line 145; nothing else in the module ever reads it. -/
  adminAdmin : Option Nat
  /-- Next fresh object id. -/
  nextId : Nat
  /-- Ids of all constructed roles, most recent first. -/
  created : List Nat
  /-- `_child_roles` of each role id. -/
  childEdges : Nat → List Nat

/-- The fresh-process state: semaphore available, `Role.__admin is None`,
no roles constructed, all child sets empty. -/
def adminInit : AdminState :=
  { semaphoreFree := true, admin := none, adminAdmin := none,
    nextId := 0, created := [], childEdges := fun _ => [] }

/-- Allocate a fresh role object (the `self` that `__init__` runs on). -/
def allocRole (s : AdminState) : Nat × AdminState :=
  (s.nextId,
   { s with nextId := s.nextId + 1, created := s.nextId :: s.created })

/-- The tail of `Role.__init__` (lines 138-139):
`if self.__admin is not None: self.__admin.add_child_role(self)`.
When `__admin` is `None` the call is skipped.  When it is set, the embedded
`add_child_role` is invoked; for a freshly allocated child the two cycle
checks pass and the body `self._child_roles |= child_role` (line 253)
applies `|=` to a `set` and a `Role`, which raises `TypeError`. -/
def registerUnderAdmin (s : AdminState) : Except PyErr AdminState :=
  match s.admin with
  | none => Except.ok s
  | some _ => Except.error PyErr.typeError

/-- `Role.__init__` in a state where the semaphore is already taken:
allocate the object, skip `__init_admin`, then run the registration tail. -/
def mkRoleTaken (s : AdminState) : Except PyErr (Nat × AdminState) :=
  (registerUnderAdmin (allocRole s).2).map (fun s2 => ((allocRole s).1, s2))

/-- `Role.__init__` (lines 121-139).  If the semaphore is still free the
constructor acquires it and runs `__init_admin`, which (when `__admin is
None`) recursively constructs `cls(name="admins")` and assigns the result
to the junk attribute `cls.__admin__admin` — not to `cls.__admin`. -/
def mkRole (s : AdminState) : Except PyErr (Nat × AdminState) :=
  if s.semaphoreFree then
    let s2 := { (allocRole s).2 with semaphoreFree := false }
    match
      (if s2.admin = none then
        (mkRoleTaken s2).map (fun r => { r.2 with adminAdmin := some r.1 })
      else Except.ok s2) with
    | Except.error e => Except.error e
    | Except.ok s3 =>
        (registerUnderAdmin s3).map (fun s4 => ((allocRole s).1, s4))
  else
    mkRoleTaken s

/-- Run `n` successive plain `Role(...)` constructions. -/
def iterCons : Nat → AdminState → Except PyErr AdminState
  | 0, s => Except.ok s
  | n + 1, s =>
      match mkRole s with
      | Except.error e => Except.error e
      | Except.ok r => iterCons n r.2

/-- Invariant characterizing every state reachable by construction alone:
the declared `Role.__admin` attribute is still `None` and no child edge has
ever been inserted. -/
def AdminBroken (s : AdminState) : Prop :=
  s.admin = none ∧ ∀ r, s.childEdges r = []

theorem adminInit_broken : AdminBroken adminInit :=
  ⟨rfl, fun _ => rfl⟩

theorem mkRoleTaken_broken {s : AdminState} (h : s.admin = none) :
    mkRoleTaken s = Except.ok ((allocRole s).1, (allocRole s).2) := by
  simp [mkRoleTaken, registerUnderAdmin, allocRole, Except.map, h]

theorem mkRole_broken {s : AdminState} (h : AdminBroken s) :
    ∃ i s', mkRole s = Except.ok (i, s') ∧
      s'.admin = none ∧ s'.childEdges = s.childEdges := by
  obtain ⟨ha, hc⟩ := h
  unfold mkRole
  by_cases hsem : s.semaphoreFree
  · rw [if_pos hsem]
    simp only [mkRoleTaken, registerUnderAdmin, allocRole, Except.map, ha]
    exact ⟨_, _, rfl, rfl, rfl⟩
  · rw [if_neg hsem, mkRoleTaken_broken ha]
    exact ⟨_, _, rfl, ha, rfl⟩

/-- C1: the admin-singleton invariant FAILS on the code.  Because
`Role.__init_admin` assigns `cls.__admin__admin` instead of `cls.__admin`
(line 145), the declared class attribute `Role.__admin` remains `None`
after any number of constructions, and no constructed role is ever
registered as the child of any role: the constructor-maintained child sets
of all roles stay empty, so no single admin root exists of which every
other constructed role is a direct child. -/
theorem admin_root_never_initialized :
    ∀ n : Nat, ∃ s : AdminState,
      iterCons n adminInit = Except.ok s ∧
      s.admin = none ∧ ∀ r, s.childEdges r = [] := by
  have key : ∀ (n : Nat) (s : AdminState), AdminBroken s →
      ∃ s', iterCons n s = Except.ok s' ∧ AdminBroken s' := by
    intro n
    induction n with
    | zero => intro s h; exact ⟨s, rfl, h⟩
    | succ n ih =>
        intro s h
        obtain ⟨i, s', hstep, ha', hc'⟩ := mkRole_broken h
        obtain ⟨s'', hrun, hb'⟩ := ih s' ⟨ha', by rw [hc']; exact h.2⟩
        refine ⟨s'', ?_, hb'⟩
        unfold iterCons
        rw [hstep]
        exact hrun
  intro n
  obtain ⟨s, hrun, hb⟩ := key n adminInit adminInit_broken
  exact ⟨s, hrun, hb.1, hb.2⟩

/-!
## `Role.__invert__` (lines 179-182)

    def __invert__(self) -> "Role":
        inverted_role = ~self
        inverted_role._inverted = True
        return inverted_role

The expression `~self` invokes `Role.__invert__` on the very same receiver,
so the method recurses with no base case.  We embed the recursion with an
explicit depth bound: `invertFuel fuel r` is the result of running
`__invert__` on `r` allowing at most `fuel` nested calls, where exhausting
the bound is Python's `RecursionError`.
-/

/-- A plain `Role` object as far as `__invert__` is concerned. -/
structure RoleObj where
  members : List Int
  inverted : Bool
  deriving DecidableEq, Repr

/-- `Role.__invert__` with a recursion-depth bound: the body first evaluates
`~self` (the recursive call), then would set `_inverted = True` on the
result. -/
def invertFuel : Nat → RoleObj → Except PyErr RoleObj
  | 0, _ => Except.error PyErr.recursionError
  | fuel + 1, r =>
      match invertFuel fuel r with
      | Except.error e => Except.error e
      | Except.ok ir => Except.ok { ir with inverted := true }

/-- C2: inversion never terminates.  For every recursion bound and every
role, `Role.__invert__` exhausts the bound (`RecursionError`); it never
returns the new inverted `Role` that the specification describes. -/
theorem invert_always_diverges :
    ∀ (fuel : Nat) (r : RoleObj),
      invertFuel fuel r = Except.error PyErr.recursionError := by
  intro fuel
  induction fuel with
  | zero => intro r; rfl
  | succ fuel ih =>
      intro r
      unfold invertFuel
      rw [ih r]

/-!
## The role hierarchy: `Role.__lt__` / `Role.__le__` (lines 264-272)

A role graph assigns to every role id its set of direct child roles (as a
list, in the iteration order of the Python `set`), its direct member ids
(`chat_ids`) and its `_inverted` flag.  The Python comparison

    def __lt__(self, other):
        if isinstance(other, Role):
            return self is not other and any(self <= child for child in other.child_roles)
        return False

    def __le__(self, other):
        return self is other or self < other

is recursive through the child edges; it terminates exactly on acyclic
graphs.  `roleLT g fuel a b` runs it with recursion depth bounded by
`fuel`; the result is monotone in `fuel` and on acyclic graphs it
stabilizes once `fuel` exceeds the depth of the graph below `b`.
-/

/-- The object graph underlying a family of `Role` instances.  Role ids
stand for object identities (`self is other` becomes id equality). -/
structure RoleGraph where
  children : Nat → List Nat
  members : Nat → List Int
  inverted : Nat → Bool

/-- `Role.__lt__` with bounded recursion depth: `a < b` iff `a` is not `b`
and some child `c` of `b` satisfies `a <= c`, i.e. `a == c or a < c`. -/
def roleLT (g : RoleGraph) : Nat → Nat → Nat → Bool
  | 0, _, _ => false
  | fuel + 1, a, b =>
      decide (a ≠ b) &&
        (g.children b).any (fun c => a == c || roleLT g fuel a c)

/-- `Role.__le__`: `self is other or self < other`. -/
def roleLE (g : RoleGraph) (fuel a b : Nat) : Bool :=
  a == b || roleLT g fuel a b

/-- Descending reachability through child edges: `Reach g a b` holds when
`a` can be reached from `b` by following zero or more child edges. -/
inductive Reach (g : RoleGraph) : Nat → Nat → Prop
  | refl (a : Nat) : Reach g a a
  | step {a c b : Nat} : Reach g a c → c ∈ g.children b → Reach g a b

/-- Acyclicity of the child graph, witnessed by a rank function that
strictly decreases along child edges (every child edge goes from a higher
rank to a lower one, so no chain of child edges can return to its start). -/
def Acyclic (g : RoleGraph) : Prop :=
  ∃ rank : Nat → Nat, ∀ b c, c ∈ g.children b → rank c < rank b

theorem roleLT_mono {g : RoleGraph} :
    ∀ {f f' a b}, f ≤ f' → roleLT g f a b = true → roleLT g f' a b = true := by
  intro f
  induction f with
  | zero => intro f' a b _ h; simp [roleLT] at h
  | succ f ih =>
      intro f' a b hle h
      obtain ⟨f'', rfl⟩ : ∃ f'', f' = f'' + 1 :=
        ⟨f' - 1, by omega⟩
      simp only [roleLT, Bool.and_eq_true, List.any_eq_true] at h ⊢
      obtain ⟨hne, c, hc, hor⟩ := h
      refine ⟨hne, c, hc, ?_⟩
      rcases Bool.or_eq_true_iff.mp hor with heq | hlt
      · exact Bool.or_eq_true_iff.mpr (Or.inl heq)
      · exact Bool.or_eq_true_iff.mpr (Or.inr (ih (by omega) hlt))

theorem roleLT_rank {g : RoleGraph} {rank : Nat → Nat}
    (hr : ∀ b c, c ∈ g.children b → rank c < rank b) :
    ∀ {f a b}, roleLT g f a b = true → rank a < rank b := by
  intro f
  induction f with
  | zero => intro a b h; simp [roleLT] at h
  | succ f ih =>
      intro a b h
      simp only [roleLT, Bool.and_eq_true, List.any_eq_true] at h
      obtain ⟨-, c, hc, hor⟩ := h
      have hcb := hr b c hc
      rcases Bool.or_eq_true_iff.mp hor with heq | hlt
      · exact (beq_iff_eq.mp heq) ▸ hcb
      · exact lt_trans (ih hlt) hcb

theorem roleLT_reach {g : RoleGraph} :
    ∀ {f a b}, roleLT g f a b = true → Reach g a b := by
  intro f
  induction f with
  | zero => intro a b h; simp [roleLT] at h
  | succ f ih =>
      intro a b h
      simp only [roleLT, Bool.and_eq_true, List.any_eq_true] at h
      obtain ⟨-, c, hc, hor⟩ := h
      rcases Bool.or_eq_true_iff.mp hor with heq | hlt
      · exact Reach.step ((beq_iff_eq.mp heq) ▸ Reach.refl a) hc
      · exact Reach.step (ih hlt) hc

theorem roleLT_trans_aux {g : RoleGraph} {rank : Nat → Nat}
    (hr : ∀ b c, c ∈ g.children b → rank c < rank b) :
    ∀ {f2 f1 a b c}, roleLT g f1 a b = true → roleLT g f2 b c = true →
      roleLT g (f1 + f2) a c = true := by
  intro f2
  induction f2 with
  | zero => intro f1 a b c _ h; simp [roleLT] at h
  | succ f2 ih =>
      intro f1 a b c hab hbc
      simp only [roleLT, Bool.and_eq_true, List.any_eq_true] at hbc
      obtain ⟨-, e, he, hor⟩ := hbc
      have hac : rank a < rank c := by
        have h1 := roleLT_rank hr hab
        have h2 : rank b < rank c := by
          have hec := hr c e he
          rcases Bool.or_eq_true_iff.mp hor with heq | hlt
          · exact (beq_iff_eq.mp heq) ▸ hec
          · exact lt_trans (roleLT_rank hr hlt) hec
        exact lt_trans h1 h2
      have hstep : (a == e || roleLT g (f1 + f2) a e) = true := by
        rcases Bool.or_eq_true_iff.mp hor with heq | hlt
        · have : e = b := (beq_iff_eq.mp heq).symm
          subst this
          exact Bool.or_eq_true_iff.mpr
            (Or.inr (roleLT_mono (Nat.le_add_right f1 f2) hab))
        · exact Bool.or_eq_true_iff.mpr (Or.inr (ih hab hlt))
      show (decide (a ≠ c) &&
        (g.children c).any (fun e => a == e || roleLT g (f1 + f2) a e)) = true
      refine Bool.and_eq_true_iff.mpr ⟨?_, ?_⟩
      · exact decide_eq_true (fun hEq => absurd (hEq ▸ hac) (lt_irrefl _))
      · exact List.any_eq_true.mpr ⟨e, he, hstep⟩

/-- C5: over any acyclic role graph, the hierarchical comparison
`Role.__lt__` is a strict partial order.  It is transitive (running the
comparison with the combined recursion budget), irreflexive at every
recursion budget, and whenever neither role is reachable from the other by
descending child edges, both comparisons are false. -/
theorem roleLT_strict_partial_order (g : RoleGraph) (hacyc : Acyclic g) :
    (∀ f1 f2 a b c, roleLT g f1 a b = true → roleLT g f2 b c = true →
        roleLT g (f1 + f2) a c = true) ∧
    (∀ f a, roleLT g f a a = false) ∧
    (∀ a b, ¬ Reach g a b → ¬ Reach g b a →
        ∀ f, roleLT g f a b = false ∧ roleLT g f b a = false) := by
  obtain ⟨rank, hr⟩ := hacyc
  refine ⟨fun f1 f2 a b c hab hbc => roleLT_trans_aux hr hab hbc, ?_, ?_⟩
  · intro f a
    cases f with
    | zero => rfl
    | succ f => simp [roleLT]
  · intro a b hab hba f
    constructor
    · cases hlt : roleLT g f a b
      · rfl
      · exact absurd (roleLT_reach hlt) hab
    · cases hlt : roleLT g f b a
      · rfl
      · exact absurd (roleLT_reach hlt) hba

/-- The three-role chain 2 → 1 → 0 (role 1 is a child of role 2 and role 0
is a child of role 1), used as the concrete acyclic instance. -/
def chainGraph : RoleGraph where
  children n := match n with
    | 1 => [0]
    | 2 => [1]
    | _ => []
  members _ := []
  inverted _ := false

theorem chainGraph_acyclic : Acyclic chainGraph := by
  refine ⟨fun n => n, ?_⟩
  intro b c hc
  unfold chainGraph at hc
  dsimp only at hc
  split at hc <;> simp_all

/-- Witness for C5 at the concrete chain: role 0 is below role 1 and role 1
below role 2, hence role 0 is below role 2 by transitivity. -/
theorem roleLT_strict_partial_order_witness :
    roleLT chainGraph 2 0 2 = true :=
  (roleLT_strict_partial_order chainGraph chainGraph_acyclic).1
    1 1 0 1 2 (by decide) (by decide)

/-!
## `Role.add_child_role` (lines 242-253)

    def add_child_role(self, child_role):
        if self is child_role:
            raise ValueError("You must not add a role as its own child!")
        if self <= child_role:
            raise ValueError("You must not add a parent role as a child!")
        with self.__lock:
            self._child_roles |= child_role

After both cycle checks pass, the mutation applies the in-place union
operator to a `set` and a single `Role` object.  `set.__ior__` only
accepts sets, and `Role` defines no reflected `__ror__`, so the statement
raises `TypeError` and the child set is never modified.  The embedding
returns the raised exception (the graph is unchanged on every path, since
the code raises before any mutation takes effect). -/
def add_child_role (g : RoleGraph) (fuel p c : Nat) : Except PyErr Unit :=
  if p = c then Except.error PyErr.valueError
  else if roleLE g fuel p c = true then Except.error PyErr.valueError
  else Except.error PyErr.typeError

/-- C4: the cycle checks behave as claimed, but the success path does not
exist.  On the chain 2 → 1 → 0: adding a role as its own child raises
`ValueError`; adding role 2 (which dominates role 0) as a child of role 0
raises the same `ValueError` with the children untouched; but for two
fresh, unrelated roles (ids 5 and 6) the insertion that the claim says
must succeed instead raises `TypeError` from `set |= Role`, and no call of
`add_child_role` ever returns normally. -/
theorem add_child_role_never_succeeds :
    add_child_role chainGraph 4 0 0 = Except.error PyErr.valueError ∧
    add_child_role chainGraph 4 0 2 = Except.error PyErr.valueError ∧
    add_child_role chainGraph 4 5 6 = Except.error PyErr.typeError ∧
    ∀ (g : RoleGraph) (fuel p c : Nat) (u : Unit),
      add_child_role g fuel p c ≠ Except.ok u := by
  refine ⟨rfl, rfl, rfl, ?_⟩
  intro g fuel p c u h
  unfold add_child_role at h
  split at h
  · exact Except.noConfusion h
  · split at h <;> exact Except.noConfusion h

/-- Witness for C4 at a concrete input: inserting fresh role 6 under fresh
role 5 does not succeed. -/
theorem add_child_role_never_succeeds_witness :
    add_child_role chainGraph 4 5 6 ≠ Except.ok () :=
  add_child_role_never_succeeds.2.2.2 chainGraph 4 5 6 ()

/-!
## `Role.__deepcopy__` (lines 320-325)

    def __deepcopy__(self, memo):
        new_role = Role(chat_ids=list(self.chat_ids), name=self.name)
        memo[id(self)] = new_role
        for child_role in self.child_roles:
            new_role.add_child_role(deepcopy(child_role, memo))
        return new_role

For a role with no children the loop body never runs and a fresh role
carrying a copy of the member set is returned.  For a role with children,
the first iteration recursively deep-copies the first child (which may
itself raise) and then calls `new_role.add_child_role(copy)`; the fresh
parent and the fresh copy are distinct and unrelated, so both cycle checks
pass and `set |= Role` raises `TypeError`.  The embedding returns the
copied member list on success. -/
def role_deepcopy (g : RoleGraph) : Nat → Nat → Except PyErr (List Int)
  | 0, _ => Except.error PyErr.recursionError
  | fuel + 1, r =>
      match g.children r with
      | [] => Except.ok (g.members r)
      | c :: _ =>
          match role_deepcopy g fuel c with
          | Except.error e => Except.error e
          | Except.ok _ => Except.error PyErr.typeError

/-- The two-role graph in which role 0 has the single child 1 and member 7,
used as the concrete deep-copy counterexample. -/
def parentChildGraph : RoleGraph where
  children n := match n with
    | 0 => [1]
    | _ => []
  members n := match n with
    | 0 => [7]
    | _ => []
  inverted _ := false

/-- C7: deep-copy FAILS on every role that has a child.  Copying the
childless role 1 succeeds, but copying role 0 (child: role 1) raises
`TypeError` from `new_role.add_child_role(...)` — the copy the claim
describes is never produced for any role with children (and a registry can
not be deep-copied at all, since `Roles.__deepcopy__` starts by
constructing `Roles(self.bot)`, which raises; see the C3 theorem). -/
theorem role_deepcopy_raises :
    role_deepcopy parentChildGraph 5 1 = Except.ok [] ∧
    role_deepcopy parentChildGraph 5 0 = Except.error PyErr.typeError := by
  constructor <;> rfl

/-!
## `Role._set_custom_admin` (lines 147-150) and `Roles.__init__` (lines 454-465)

    def _set_custom_admin(self, new_admin):
        with self.__admin_lock:
            self.__admin.remove_child_role(self)
        new_admin.add_child_role(self)

With `Role.__admin` permanently `None` (see `admin_root_never_initialized`),
the attribute access `self.__admin.remove_child_role` raises
`AttributeError`.  Were `__admin` ever set, the subsequent
`new_admin.add_child_role(self)` would raise `TypeError` instead.

    def __init__(self, bot):
        ...
        self.admins = Role(name="admins")
        self.chat_admins = ChatAdminsRole(bot=self.bot)
        self.chat_creator = ChatCreatorRole(bot=self.bot)
        self.chat_admins._set_custom_admin(self.admins)
        self.chat_creator._set_custom_admin(self.admins)

(`ChatAdminsRole.__init__` and `ChatCreatorRole.__init__` both start with a
plain `Role.__init__` call, embedded by `mkRole`.) -/
def set_custom_admin (s : AdminState) : Except PyErr AdminState :=
  match s.admin with
  | none => Except.error PyErr.attributeError
  | some _ => Except.error PyErr.typeError

/-- `Roles.__init__`: construct the three member roles, then re-parent the
two specialized roles under the registry admins role. -/
def roles_init (s0 : AdminState) : Except PyErr (Nat × Nat × Nat × AdminState) :=
  match mkRole s0 with
  | Except.error e => Except.error e
  | Except.ok (adminsId, s1) =>
      match mkRole s1 with
      | Except.error e => Except.error e
      | Except.ok (caId, s2) =>
          match mkRole s2 with
          | Except.error e => Except.error e
          | Except.ok (ccId, s3) =>
              match set_custom_admin s3 with
              | Except.error e => Except.error e
              | Except.ok s4 =>
                  (set_custom_admin s4).map (fun s5 => (adminsId, caId, ccId, s5))

/-- C3: the registry scenario cannot even be set up.  Constructing
`Roles(bot)` in a fresh process raises `AttributeError`: the first
`_set_custom_admin` call dereferences `self.__admin`, which is still
`None` because `Role.__init_admin` assigned the misspelled attribute
`cls.__admin__admin`.  The claimed evaluation of the "mods" filter against
the admin principal is therefore unreachable. -/
theorem roles_init_raises :
    roles_init adminInit = Except.error PyErr.attributeError := by
  rfl

/-!
## `Role.equals` (lines 290-315)

    def equals(self, other):
        if self.chat_ids == other.chat_ids:
            if len(self.child_roles) == len(other.child_roles):
                if len(self.child_roles) == 0:
                    return True
                for child_role in self.child_roles:
                    if not any(child_role.equals(ocr) for ocr in other.child_roles):
                        return False
                for ocr in other.child_roles:
                    if not any(ocr.equals(cr) for cr in self.child_roles):
                        return False
                return True
        return False

The method recurses through child references only; over an acyclic graph
its call tree is exactly the tree unfolding of the two roles, so we embed
the roles it compares as finitely branching trees.  A node carries the
`chat_ids` member set (a Python `frozenset`, embedded as `Finset Int`) and
the list of child subtrees in the iteration order of the Python `set`
(distinct list entries stand for distinct child objects; two distinct
objects of equal shape may both occur, just as in a Python set). -/
inductive RoleTree : Type where
  | mk (members : Finset Int) (children : List RoleTree)

/-- The `chat_ids` member set of the root. -/
def RoleTree.members : RoleTree → Finset Int
  | .mk m _ => m

/-- The child subtrees of the root. -/
def RoleTree.children : RoleTree → List RoleTree
  | .mk _ c => c

/-- `Role.equals`, recursing through `List.attach` so that each recursive
call carries its membership proof for termination. -/
def equals : RoleTree → RoleTree → Bool
  | .mk m1 c1, .mk m2 c2 =>
      if m1 = m2 then
        if c1.length = c2.length then
          if c1.length = 0 then true
          else
            c1.attach.all (fun x => c2.attach.any (fun y => equals x.1 y.1)) &&
            c2.attach.all (fun x => c1.attach.any (fun y => equals x.1 y.1))
        else false
      else false
termination_by a b => sizeOf a + sizeOf b
decreasing_by
  all_goals
    simp_wf
    have hx := List.sizeOf_lt_of_mem x.2
    have hy := List.sizeOf_lt_of_mem y.2
    omega

theorem any_attach_eq {α : Type} (l : List α) (f : α → Bool) :
    l.attach.any (fun x => f x.1) = l.any f := by
  cases hb : l.any f
  · rw [List.any_eq_false] at hb
    rw [List.any_eq_false]
    intro x _
    exact hb x.1 x.2
  · rw [List.any_eq_true] at hb
    obtain ⟨x, hx, hfx⟩ := hb
    rw [List.any_eq_true]
    exact ⟨⟨x, hx⟩, List.mem_attach l ⟨x, hx⟩, hfx⟩

theorem all_attach_eq {α : Type} (l : List α) (f : α → Bool) :
    l.attach.all (fun x => f x.1) = l.all f := by
  cases hb : l.all f
  · rw [List.all_eq_false] at hb
    obtain ⟨x, hx, hfx⟩ := hb
    rw [List.all_eq_false]
    exact ⟨⟨x, hx⟩, List.mem_attach l ⟨x, hx⟩, hfx⟩
  · rw [List.all_eq_true] at hb
    rw [List.all_eq_true]
    intro x _
    exact hb x.1 x.2

theorem all_any_attach (c1 c2 : List RoleTree) (f : RoleTree → RoleTree → Bool) :
    (c1.attach.all fun x => c2.attach.any fun y => f x.1 y.1) =
      c1.all fun x => c2.any fun y => f x y := by
  have h : (fun x : {x // x ∈ c1} => c2.attach.any fun y => f x.1 y.1)
      = (fun x : {x // x ∈ c1} => c2.any fun y => f x.1 y) :=
    funext fun x => any_attach_eq c2 (f x.1)
  rw [h]
  exact all_attach_eq c1 (fun x => c2.any fun y => f x y)

/-- The recursion of `equals` with the `attach` bookkeeping erased. -/
theorem equals_eq (m1 m2 : Finset Int) (c1 c2 : List RoleTree) :
    equals (.mk m1 c1) (.mk m2 c2) =
      if m1 = m2 then
        if c1.length = c2.length then
          if c1.length = 0 then true
          else
            c1.all (fun x => c2.any (fun y => equals x y)) &&
            c2.all (fun x => c1.any (fun y => equals x y))
        else false
      else false := by
  rw [equals]
  rw [all_any_attach c1 c2 equals, all_any_attach c2 c1 equals]

theorem perm_all_eq {α : Type} {l l' : List α} (h : l.Perm l') (f : α → Bool) :
    l.all f = l'.all f := by
  cases ha : l.all f <;> cases hb : l'.all f
  · rfl
  · rw [List.all_eq_false] at ha
    rw [List.all_eq_true] at hb
    obtain ⟨x, hx, hfx⟩ := ha
    exact absurd (hb x (h.mem_iff.mp hx)) hfx
  · rw [List.all_eq_true] at ha
    rw [List.all_eq_false] at hb
    obtain ⟨x, hx, hfx⟩ := hb
    exact absurd (ha x (h.mem_iff.mpr hx)) hfx
  · rfl

theorem perm_any_eq {α : Type} {l l' : List α} (h : l.Perm l') (f : α → Bool) :
    l.any f = l'.any f := by
  cases ha : l.any f <;> cases hb : l'.any f
  · rfl
  · rw [List.any_eq_true] at hb
    obtain ⟨x, hx, hfx⟩ := hb
    rw [List.any_eq_false] at ha
    exact absurd hfx (ha x (h.mem_iff.mpr hx))
  · rw [List.any_eq_true] at ha
    obtain ⟨x, hx, hfx⟩ := ha
    rw [List.any_eq_false] at hb
    exact absurd hfx (hb x (h.mem_iff.mp hx))
  · rfl

theorem equals_refl_aux :
    ∀ (n : Nat) (t : RoleTree), sizeOf t ≤ n → equals t t = true := by
  intro n
  induction n with
  | zero =>
      intro t h
      obtain ⟨m, c⟩ := t
      simp at h
  | succ n ih =>
      intro t h
      obtain ⟨m, c⟩ := t
      rw [equals_eq, if_pos rfl, if_pos rfl]
      by_cases hc : c.length = 0
      · rw [if_pos hc]
      · rw [if_neg hc]
        have hall : c.all (fun x => c.any (fun y => equals x y)) = true := by
          rw [List.all_eq_true]
          intro x hx
          rw [List.any_eq_true]
          refine ⟨x, hx, ih x ?_⟩
          have hlt := List.sizeOf_lt_of_mem hx
          simp only [RoleTree.mk.sizeOf_spec] at h
          omega
        rw [hall]
        rfl

/-- C6: `Role.equals` is reflexive, symmetric, insensitive to the order of
the child lists (the order in which child roles were inserted), and true
on any two fresh childless roles with equal member sets. -/
theorem equals_structural (a b : RoleTree) (m1 m2 m : Finset Int)
    (c1 c1' c2 c2' : List RoleTree)
    (h1 : c1.Perm c1') (h2 : c2.Perm c2') :
    equals a a = true ∧
    equals a b = equals b a ∧
    equals (.mk m1 c1) (.mk m2 c2) = equals (.mk m1 c1') (.mk m2 c2') ∧
    equals (.mk m []) (.mk m []) = true := by
  have symm : ∀ x y : RoleTree, equals x y = equals y x := by
    intro x y
    obtain ⟨mx, cx⟩ := x
    obtain ⟨my, cy⟩ := y
    rw [equals_eq, equals_eq]
    by_cases hm : mx = my
    · subst hm
      rw [if_pos rfl, if_pos rfl]
      by_cases hl : cx.length = cy.length
      · rw [if_pos hl, if_pos hl.symm]
        by_cases h0 : cx.length = 0
        · rw [if_pos h0, if_pos (hl.symm.trans h0)]
        · rw [if_neg h0, if_neg (fun hh => h0 (hl.trans hh))]
          exact Bool.and_comm _ _
      · rw [if_neg hl, if_neg (fun hh => hl hh.symm)]
    · rw [if_neg hm, if_neg (fun hh => hm hh.symm)]
  refine ⟨equals_refl_aux (sizeOf a) a le_rfl, symm a b, ?_, ?_⟩
  · rw [equals_eq, equals_eq, h1.length_eq, h2.length_eq]
    by_cases hm : m1 = m2
    · rw [if_pos hm, if_pos hm]
      by_cases hl : c1'.length = c2'.length
      · rw [if_pos hl, if_pos hl]
        by_cases h0 : c1'.length = 0
        · rw [if_pos h0, if_pos h0]
        · rw [if_neg h0, if_neg h0]
          have e1 : c1.all (fun x => c2.any (fun y => equals x y)) =
              c1'.all (fun x => c2'.any (fun y => equals x y)) := by
            rw [perm_all_eq h1]
            congr 1
            funext x
            exact perm_any_eq h2 _
          have e2 : c2.all (fun x => c1.any (fun y => equals x y)) =
              c2'.all (fun x => c1'.any (fun y => equals x y)) := by
            rw [perm_all_eq h2]
            congr 1
            funext x
            exact perm_any_eq h1 _
          rw [e1, e2]
      · rw [if_neg hl, if_neg hl]
    · rw [if_neg hm, if_neg hm]
  · rw [equals_eq]
    simp

/-- Witness for C6 at concrete trees: two roles that both have the children
{members {1}}, {members {2}} but inserted in opposite orders are `equals`,
and the claim instance for fresh roles with member set {5}. -/
theorem equals_structural_witness :
    equals (.mk {3} [.mk {1} [], .mk {2} []])
        (.mk {3} [.mk {2} [], .mk {1} []]) =
      equals (.mk {3} [.mk {2} [], .mk {1} []])
        (.mk {3} [.mk {2} [], .mk {1} []]) ∧
    equals (.mk {5} []) (.mk {5} []) = true := by
  have h := equals_structural
    (RoleTree.mk {3} [.mk {1} [], .mk {2} []])
    (RoleTree.mk {3} [.mk {2} [], .mk {1} []])
    {3} {3} {5}
    [RoleTree.mk {1} [], RoleTree.mk {2} []]
    [RoleTree.mk {2} [], RoleTree.mk {1} []]
    [RoleTree.mk {2} [], RoleTree.mk {1} []]
    [RoleTree.mk {2} [], RoleTree.mk {1} []]
    (List.Perm.swap _ _ _) (List.Perm.refl _)
  exact ⟨h.2.2.1, h.2.2.2⟩

/-!
## Updates, caches and the specialized filters

An update exposes an optional effective user (its id) and an optional
effective chat (id and chat kind); the Python truthiness tests `if user
and chat` / `if not (user or chat)` become presence tests on the options.
Python dicts keyed by chat id are embedded as association lists with
last-write-wins update.  External collaborator calls
(`bot.get_chat_administrators`, `bot.get_chat_member`) are embedded as
inputs: the value the collaborator would return for this call (or, for the
creator lookup, the `TelegramError` it would raise).  Each filter returns,
besides its boolean outcome, the updated cache and the number of external
fetches the call performed. -/
inductive ChatType where
  | priv
  | group
  | supergroup
  | channel
  deriving DecidableEq, Repr

/-- The effective chat of an update: id plus chat kind. -/
structure TgChat where
  id : Int
  type : ChatType
  deriving DecidableEq, Repr

/-- The parts of a telegram update consumed by the filters. -/
structure TgUpdate where
  effectiveUser : Option Int
  effectiveChat : Option TgChat
  deriving DecidableEq, Repr

/-- Python `dict.get(k, None)` over an association list. -/
def cacheGet {α : Type} : List (Int × α) → Int → Option α
  | [], _ => none
  | (k', v) :: rest, k => if k = k' then some v else cacheGet rest k

/-- Python `d[k] = v` over an association list. -/
def cacheSet {α : Type} : List (Int × α) → Int → α → List (Int × α)
  | [], k, v => [(k, v)]
  | (k', v') :: rest, k, v =>
      if k = k' then (k, v) :: rest else (k', v') :: cacheSet rest k v

theorem cacheGet_cacheSet {α : Type} (c : List (Int × α)) (k : Int) (v : α) :
    cacheGet (cacheSet c k v) k = some v := by
  induction c with
  | nil => simp [cacheSet, cacheGet]
  | cons p rest ih =>
      obtain ⟨k', v'⟩ := p
      by_cases hk : k = k'
      · simp [cacheSet, cacheGet, hk]
      · simp [cacheSet, cacheGet, hk, ih]

/-- `ChatAdminsRole.filter` (lines 357-376).  `cache` maps a chat id to the
pair (fetch timestamp, admin user ids); `now` is the value of both
`time.time()` calls of this invocation and `fetched` is the admin id list
that `bot.get_chat_administrators(chat.id)` would deliver.  A cached entry
is used only while `now - fetched_at < timeout`; otherwise the fetch is
performed and overwrites the entry with the current timestamp. -/
def chatAdminsFilter (timeout : Int) (cache : List (Int × Int × List Int))
    (upd : TgUpdate) (now : Int) (fetched : List Int) :
    Bool × List (Int × Int × List Int) × Nat :=
  match upd.effectiveUser, upd.effectiveChat with
  | some uid, some chat =>
      if chat.type = ChatType.priv then (true, cache, 0)
      else
        match cacheGet cache chat.id with
        | some entry =>
            if now - entry.1 < timeout then (decide (uid ∈ entry.2), cache, 0)
            else (decide (uid ∈ fetched), cacheSet cache chat.id (now, fetched), 1)
        | none => (decide (uid ∈ fetched), cacheSet cache chat.id (now, fetched), 1)
  | _, _ => (false, cache, 0)

/-- The member status that `bot.get_chat_member` reports. -/
inductive MemberStatus where
  | creator
  | administrator
  | member
  | restricted
  | left
  | kicked
  deriving DecidableEq, Repr

/-- The fetch branch of `ChatCreatorRole.filter` (lines 411-419): the
`try` block around `bot.get_chat_member`.  A `TelegramError` (the user is
not a chat member, or the bot has no access) is caught and turned into
`False`; a `creator` status caches the user id and matches. -/
def chatCreatorTry (cache : List (Int × Int)) (cid uid : Int)
    (lookup : Except Unit MemberStatus) : Bool × List (Int × Int) × Nat :=
  match lookup with
  | Except.error _ => (false, cache, 1)
  | Except.ok st =>
      if st = MemberStatus.creator then (true, cacheSet cache cid uid, 1)
      else (false, cache, 1)

/-- `ChatCreatorRole.filter` (lines 399-420).  The cache maps a chat id to
the creator user id that was stored by `self.cache[chat.id] = user.id`;
the Python guard `if self.cache.get(chat.id, None):` is a truthiness test,
so a stored creator id `0` would be treated as a cache miss — the
embedding keeps that detail. -/
def chatCreatorFilter (cache : List (Int × Int)) (upd : TgUpdate)
    (lookup : Except Unit MemberStatus) : Bool × List (Int × Int) × Nat :=
  match upd.effectiveUser, upd.effectiveChat with
  | some uid, some chat =>
      if chat.type = ChatType.priv then (true, cache, 0)
      else
        match cacheGet cache chat.id with
        | some creatorId =>
            if creatorId ≠ 0 then (decide (uid = creatorId), cache, 0)
            else chatCreatorTry cache chat.id uid lookup
        | none => chatCreatorTry cache chat.id uid lookup
  | _, _ => (false, cache, 0)

/-- C8: the chat-admin cache works as claimed.  With timeout 1800 and no
cache entry for the chat, the first group-chat evaluation performs exactly
one external fetch, answers from the fetched list and stores it under the
current timestamp; any second evaluation for the same chat within 1800
time units — by the same or a different user, and whatever the
collaborator would now return — performs zero fetches, leaves the cache
unchanged and answers from the cached membership list. -/
theorem chat_admins_cache_behavior (cache : List (Int × Int × List Int))
    (cid uid uid2 now now2 : Int) (fetched fetched2 : List Int)
    (hmiss : cacheGet cache cid = none) (hfresh : now2 - now < 1800) :
    chatAdminsFilter 1800 cache ⟨some uid, some ⟨cid, ChatType.group⟩⟩ now fetched
      = (decide (uid ∈ fetched), cacheSet cache cid (now, fetched), 1) ∧
    chatAdminsFilter 1800 (cacheSet cache cid (now, fetched))
        ⟨some uid2, some ⟨cid, ChatType.group⟩⟩ now2 fetched2
      = (decide (uid2 ∈ fetched), cacheSet cache cid (now, fetched), 0) := by
  constructor
  · unfold chatAdminsFilter
    simp [hmiss]
  · unfold chatAdminsFilter
    simp [cacheGet_cacheSet, hfresh]

/-- Witness for C8: empty cache, chat 555, admin list [7]; user 7 matches
and causes the single fetch at time 10; at time 100 user 8 is answered
from the cache with no fetch. -/
theorem chat_admins_cache_behavior_witness :
    chatAdminsFilter 1800 [] ⟨some 7, some ⟨555, ChatType.group⟩⟩ 10 [7]
      = (decide ((7 : Int) ∈ [(7 : Int)]), cacheSet [] 555 (10, [7]), 1) ∧
    chatAdminsFilter 1800 (cacheSet [] 555 (10, [7]))
        ⟨some 8, some ⟨555, ChatType.group⟩⟩ 100 []
      = (decide ((8 : Int) ∈ [(7 : Int)]), cacheSet [] 555 (10, [7]), 0) :=
  chat_admins_cache_behavior [] 555 7 8 10 100 [7] [] rfl (by decide)

/-- C9: the chat-creator filter absorbs external-lookup failures.  On a
non-private update carrying both a user and a chat, with no usable cache
entry, a failing `bot.get_chat_member` call (user not a chat member, or
access denied) yields the value `False` with the cache unchanged — the
filter returns instead of propagating the error. -/
theorem chat_creator_absorbs_errors (cache : List (Int × Int)) (uid : Int)
    (chat : TgChat) (hgroup : chat.type ≠ ChatType.priv)
    (hmiss : cacheGet cache chat.id = none) :
    chatCreatorFilter cache ⟨some uid, some chat⟩ (Except.error ())
      = (false, cache, 1) := by
  unfold chatCreatorFilter
  simp [hgroup, hmiss, chatCreatorTry]

/-- Witness for C9: empty cache, chat 555 (group), user 9, failing lookup. -/
theorem chat_creator_absorbs_errors_witness :
    chatCreatorFilter [] ⟨some 9, some ⟨555, ChatType.group⟩⟩ (Except.error ())
      = (false, [], 1) :=
  chat_creator_absorbs_errors [] 9 ⟨555, ChatType.group⟩ (by decide) rfl

/-!
## `Role.filter` (lines 184-220)

    def filter(self, update, target=None):
        user = update.effective_user
        chat = update.effective_chat
        if not (user or chat):
            return False
        if user and user.id in self.chat_ids:
            return True
        if chat and chat.id in self.chat_ids:
            return True
        if self._inverted:
            return any(child.filter(update, target=target) for child in self.child_roles)
        if target:
            root = self
        else:
            root = self.__admin
        return any(
            child.filter(update, target=target) for child in root.child_roles if target <= child
        )

When `target` is `None`, `root` is the class attribute `Role.__admin`
(which is permanently `None`, see `admin_root_never_initialized`, so the
access `root.child_roles` raises `AttributeError`), and the comparison
`None <= child` dispatches to `Role.__ge__(child, None)`, whose
`isinstance` test makes it `False`. -/

/-- Short-circuiting `any(...)` over a generator whose body may raise. -/
def anyExc : List Nat → (Nat → Except PyErr Bool) → Except PyErr Bool
  | [], _ => Except.ok false
  | x :: xs, f =>
      match f x with
      | Except.error e => Except.error e
      | Except.ok true => Except.ok true
      | Except.ok false => anyExc xs f

/-- The comprehension guard `target <= child`: `None <= child` is `False`
(via the reflected `Role.__ge__` and its `isinstance` check), otherwise
`Role.__le__`. -/
def optLE (g : RoleGraph) (fuel : Nat) : Option Nat → Nat → Bool
  | none, _ => false
  | some t, c => roleLE g fuel t c

/-- The test `user and user.id in self.chat_ids`. -/
def userMatches (g : RoleGraph) (self : Nat) : Option Int → Bool
  | some uid => decide (uid ∈ g.members self)
  | none => false

/-- The test `chat and chat.id in self.chat_ids`. -/
def chatMatches (g : RoleGraph) (self : Nat) : Option TgChat → Bool
  | some c => decide (c.id ∈ g.members self)
  | none => false

/-- The root selection `if target: root = self; else: root = self.__admin`
(lines 212-216). -/
def searchRoot (admin : Option Nat) (self : Nat) : Option Nat → Option Nat
  | some _ => some self
  | none => admin

/-- `Role.filter` with bounded recursion depth, over a role graph and the
current value of the class attribute `Role.__admin`.  The
`Option.elim` branch models `root.child_roles`: when the selected root is
`None` the attribute access raises `AttributeError`. -/
def roleFilter (g : RoleGraph) (admin : Option Nat) :
    Nat → Nat → TgUpdate → Option Nat → Except PyErr Bool
  | 0, _, _, _ => Except.error PyErr.recursionError
  | fuel + 1, self, upd, target =>
      if upd.effectiveUser = none ∧ upd.effectiveChat = none then
        Except.ok false
      else if userMatches g self upd.effectiveUser then Except.ok true
      else if chatMatches g self upd.effectiveChat then Except.ok true
      else if g.inverted self then
        anyExc (g.children self) (fun c => roleFilter g admin fuel c upd target)
      else
        (searchRoot admin self target).elim (Except.error PyErr.attributeError)
          (fun root =>
            anyExc ((g.children root).filter (fun c => optLE g fuel target c))
              (fun c => roleFilter g admin fuel c upd target))

/-- C10: the specialized filters require both an effective user and an
effective chat — when either is missing they return `False` immediately,
with the cache untouched and zero external fetches — whereas the plain
`Role.filter` matches on either id alone when it belongs to the member
set. -/
theorem specialized_roles_require_user_and_chat :
    (∀ timeout cache uid now fetched,
      chatAdminsFilter timeout cache ⟨some uid, none⟩ now fetched
        = (false, cache, 0)) ∧
    (∀ timeout cache chat now fetched,
      chatAdminsFilter timeout cache ⟨none, some chat⟩ now fetched
        = (false, cache, 0)) ∧
    (∀ timeout cache now fetched,
      chatAdminsFilter timeout cache ⟨none, none⟩ now fetched
        = (false, cache, 0)) ∧
    (∀ cache uid lk,
      chatCreatorFilter cache ⟨some uid, none⟩ lk = (false, cache, 0)) ∧
    (∀ cache chat lk,
      chatCreatorFilter cache ⟨none, some chat⟩ lk = (false, cache, 0)) ∧
    (∀ cache lk,
      chatCreatorFilter cache ⟨none, none⟩ lk = (false, cache, 0)) ∧
    (∀ (g : RoleGraph) (admin : Option Nat) (fuel self : Nat) (uid : Int)
        (target : Option Nat), uid ∈ g.members self →
      roleFilter g admin (fuel + 1) self ⟨some uid, none⟩ target
        = Except.ok true) ∧
    (∀ (g : RoleGraph) (admin : Option Nat) (fuel self : Nat) (chat : TgChat)
        (target : Option Nat), chat.id ∈ g.members self →
      roleFilter g admin (fuel + 1) self ⟨none, some chat⟩ target
        = Except.ok true) := by
  refine ⟨fun _ _ _ _ _ => rfl, fun _ _ _ _ _ => rfl, fun _ _ _ _ => rfl,
    fun _ _ _ => rfl, fun _ _ _ => rfl, fun _ _ => rfl, ?_, ?_⟩
  · intro g admin fuel self uid target h
    unfold roleFilter
    simp [userMatches, h]
  · intro g admin fuel self chat target h
    unfold roleFilter
    simp [userMatches, chatMatches, h]

/-- Witness for C10: with an empty cache and a user-only update, the
chat-admin filter returns `False` without fetching, while the plain role
filter on `parentChildGraph` (role 0 has member 7) matches user 7 even
with no effective chat and no admin root. -/
theorem specialized_roles_require_user_and_chat_witness :
    chatAdminsFilter 1800 [] ⟨some 3, none⟩ 0 [] = (false, [], 0) ∧
    chatCreatorFilter [] ⟨none, some ⟨555, ChatType.group⟩⟩ (Except.error ())
      = (false, [], 0) ∧
    roleFilter parentChildGraph none 1 0 ⟨some 7, none⟩ none = Except.ok true :=
  ⟨specialized_roles_require_user_and_chat.1 1800 [] 3 0 [],
   specialized_roles_require_user_and_chat.2.2.2.2.1 []
     ⟨555, ChatType.group⟩ (Except.error ()),
   specialized_roles_require_user_and_chat.2.2.2.2.2.2.1
     parentChildGraph none 0 0 7 none (by decide)⟩
